import Mathlib

/-!
A verification development for the hotel conversation-review tool
(`data_processor.py`, `export_manager.py`).

Civil (timezone-naive) datetimes are embedded as `Int` values counting
minutes: a datetime on calendar day `d` at time-of-day `h:m` is the integer
`d * 1440 + (60 * h + m)`.  Python's `datetime` comparison then coincides
with the order on `Int`, `timestamp.time()` is the residue modulo 1440,
`timestamp.date()` is the (floor) quotient by 1440, and
`datetime.combine(date, time)` is `date * 1440 + time`.  Times-of-day
(check-in and check-out times) are integers in `[0, 1440)`.
-/

namespace HotelReview

/-- `timestamp.time()` as minutes past midnight (Python `datetime.time`). -/
def ts_time (t : Int) : Int := t % 1440

/-- `timestamp.date()` as a calendar-day number (Python `datetime.date`). -/
def ts_date (t : Int) : Int := t / 1440

/-- `datetime.combine(d, tod)`. -/
def combine (d tod : Int) : Int := d * 1440 + tod

/-- The three gap-period modes of `ExportManager.segment_by_stay_sessions`:
`"合併到下一個住宿時段"`, `"單獨標記為「空檔期」時段"`, `"不包含空檔期對話"`. -/
inductive GapPeriodMode where
  | merge_into_next
  | separate_gap_session
  | exclude
deriving Repr, DecidableEq

/-- One emitted stay-session dictionary (hotel, room, start_time, end_time,
is_gap_period, conversations).  A conversation row is represented by its
`request_timestamp`; segmentation reads no other field of a row. -/
structure Session where
  hotel : String
  room : String
  start_time : Int
  end_time : Int
  is_gap_period : Bool
  conversations : List Int
deriving Repr, DecidableEq

/-- The dictionary returned by `ExportManager._create_session_boundaries`
(`stop` stands for the dict key `"end"`, a Lean keyword). -/
structure SessionBounds where
  start : Int
  stop : Int
deriving Repr, DecidableEq

/-- `ExportManager._is_gap_period` (export_manager.py lines 265-285). -/
def is_gap_period (timestamp cin cout : Int) : Bool :=
  if cout < cin then decide (cout ≤ ts_time timestamp ∧ ts_time timestamp < cin)
  else false

/-- `ExportManager._create_session_boundaries` (export_manager.py lines
210-250). -/
def create_session_boundaries (timestamp cin cout : Int) : SessionBounds :=
  let conversation_time := ts_time timestamp
  let checkin_datetime :=
    if conversation_time ≥ cin then
      combine (ts_date timestamp) cin
    else if cout ≤ cin ∧ conversation_time > cout then
      combine (ts_date timestamp) cin
    else
      combine (ts_date timestamp - 1) cin
  let checkout_datetime :=
    if cout ≤ cin then
      combine (ts_date checkin_datetime + 1) cout
    else
      combine (ts_date checkin_datetime) cout
  { start := checkin_datetime, stop := checkout_datetime }

/-- `ExportManager._is_in_session` (export_manager.py lines 252-263). -/
def is_in_session (timestamp : Int) (session : SessionBounds) : Bool :=
  decide (session.start ≤ timestamp ∧ timestamp < session.stop)

/-- `ExportManager._get_gap_period_boundaries` (export_manager.py lines
305-326). -/
def get_gap_period_boundaries (timestamp cin cout : Int) : Int × Int :=
  (combine (ts_date timestamp) cout, combine (ts_date timestamp) cin)

/-- The `if current_conversations: sessions.append(...)` step that closes the
open session in `_segment_room_conversations`. -/
def flush_session (hotel room : String) (cur : SessionBounds) (convs : List Int) :
    List Session :=
  if convs.isEmpty then []
  else [{ hotel := hotel, room := room, start_time := cur.start,
          end_time := cur.stop, is_gap_period := false, conversations := convs }]

/-- The per-row loop of `ExportManager._segment_room_conversations`
(export_manager.py lines 92-148), used for the merge and exclude modes.
State: the remaining rows, `current_session`, `current_conversations`. -/
def segment_loop (hotel room : String) (cin cout : Int) (exclude_gaps : Bool) :
    List Int → Option SessionBounds → List Int → List Session
  | [], none, _ => []
  | [], some cur, convs => flush_session hotel room cur convs
  | t :: rest, cur, convs =>
    if exclude_gaps && is_gap_period t cin cout then
      segment_loop hotel room cin cout exclude_gaps rest cur convs
    else
      match cur with
      | none =>
        segment_loop hotel room cin cout exclude_gaps rest
          (some (create_session_boundaries t cin cout)) [t]
      | some b =>
        if is_in_session t b then
          segment_loop hotel room cin cout exclude_gaps rest (some b) (convs ++ [t])
        else
          flush_session hotel room b convs ++
            segment_loop hotel room cin cout exclude_gaps rest
              (some (create_session_boundaries t cin cout)) [t]

/-- The find-or-create step of `ExportManager._segment_with_separate_gaps`
(export_manager.py lines 190-206): append the row to the existing session
whose `(start_time, end_time, is_gap_period)` triple equals `key`, else
append a fresh session holding the row at the end of the list. -/
def add_to_sessions (hotel room : String) (key : Int × Int × Bool) (row : Int) :
    List Session → List Session
  | [] => [{ hotel := hotel, room := room, start_time := key.1,
             end_time := key.2.1, is_gap_period := key.2.2, conversations := [row] }]
  | s :: rest =>
    if s.start_time = key.1 ∧ s.end_time = key.2.1 ∧ s.is_gap_period = key.2.2 then
      { s with conversations := s.conversations ++ [row] } :: rest
    else
      s :: add_to_sessions hotel room key row rest

/-- `ExportManager._segment_with_separate_gaps` (export_manager.py lines
150-208). -/
def segment_with_separate_gaps (hotel room : String) (cin cout : Int) :
    List Int → List Session → List Session
  | [], sessions => sessions
  | t :: rest, sessions =>
    let key :=
      if is_gap_period t cin cout then
        let g := get_gap_period_boundaries t cin cout
        (g.1, g.2, true)
      else
        let b := create_session_boundaries t cin cout
        (b.start, b.stop, false)
    segment_with_separate_gaps hotel room cin cout rest
      (add_to_sessions hotel room key t sessions)

/-- `ExportManager._segment_room_conversations` (export_manager.py lines
63-148): dispatch on the gap-period mode.  `records` is the room's rows in
the order `segment_by_stay_sessions` hands them over (sorted by
`request_timestamp` ascending). -/
def segment_room_conversations (hotel room : String) (records : List Int)
    (cin cout : Int) (mode : GapPeriodMode) : List Session :=
  match mode with
  | .separate_gap_session => segment_with_separate_gaps hotel room cin cout records []
  | .merge_into_next => segment_loop hotel room cin cout false records none []
  | .exclude => segment_loop hotel room cin cout true records none []

/-!
## Segmentation over raw timestamps

After `DataProcessor._parse_timestamp`, a row's `request_timestamp` is either
a datetime or the unparseable marker `pd.NaT`; a raw timestamp is therefore an
`Option Int` (`none` = `NaT`).  `_segment_room_conversations` starts every
iteration with `self._is_gap_period(timestamp, ...)`, which evaluates
`timestamp.time()`; on `NaT` that call raises
`ValueError("NaTType does not support time")` (pandas defines `NaTType.time`
as an error method), so the whole segmentation aborts with an exception,
modelled as `Except.error`.
-/

/-- The merge/exclude loop of `_segment_room_conversations` over raw
(possibly-`NaT`) timestamps: the `timestamp.time()` call inside
`_is_gap_period` raises on `NaT`. -/
def segment_loop_raw (hotel room : String) (cin cout : Int) (exclude_gaps : Bool) :
    List (Option Int) → Option SessionBounds → List Int →
    Except String (List Session)
  | [], none, _ => .ok []
  | [], some cur, convs => .ok (flush_session hotel room cur convs)
  | none :: _, _, _ => .error "NaTType does not support time"
  | some t :: rest, cur, convs =>
    if exclude_gaps && is_gap_period t cin cout then
      segment_loop_raw hotel room cin cout exclude_gaps rest cur convs
    else
      match cur with
      | none =>
        segment_loop_raw hotel room cin cout exclude_gaps rest
          (some (create_session_boundaries t cin cout)) [t]
      | some b =>
        if is_in_session t b then
          segment_loop_raw hotel room cin cout exclude_gaps rest (some b) (convs ++ [t])
        else
          (segment_loop_raw hotel room cin cout exclude_gaps rest
              (some (create_session_boundaries t cin cout)) [t]).map
            (flush_session hotel room b convs ++ ·)

/-!
## Python string primitives

Models of the Python `str` methods the code uses: `strip`, `lower`,
`replace`, and the `in` containment test.  They are written over the
character list of a `String` (Lean's own `String.trim`, `toLower` and
`replace` work on UTF-8 byte positions and do not reduce in the kernel).
`py_lower` folds ASCII letters only, which is all these comparisons need.
-/

/-- Python `str.lower` on one character (ASCII range). -/
def py_char_lower (c : Char) : Char :=
  if 'A' ≤ c ∧ c ≤ 'Z' then Char.ofNat (c.toNat + 32) else c

/-- Python `str.lower`. -/
def py_lower (s : String) : String := ⟨s.data.map py_char_lower⟩

/-- Python `str.strip()`: drop whitespace from both ends. -/
def py_strip (s : String) : String :=
  ⟨((s.data.dropWhile Char.isWhitespace).reverse.dropWhile Char.isWhitespace).reverse⟩

/-- Python `c in s` for a single character. -/
def py_contains (s : String) (c : Char) : Bool := s.data.contains c

/-- Left-to-right scan for Python `str.replace`: at skip-count 0 a match of
`pat` emits `rep` and schedules the rest of the match to be consumed. -/
def replace_go (pat rep : List Char) : List Char → Nat → List Char
  | [], _ => []
  | _ :: rest, Nat.succ k => replace_go pat rep rest k
  | c :: rest, 0 =>
    if pat ≠ [] ∧ pat.isPrefixOf (c :: rest) then
      rep ++ replace_go pat rep rest (pat.length - 1)
    else
      c :: replace_go pat rep rest 0

/-- Python `s.replace(pat, rep)` (all non-overlapping occurrences, left to
right). -/
def py_replace (s pat rep : String) : String :=
  ⟨replace_go pat.data rep.data s.data 0⟩

/-!
## `DataProcessor._parse_timestamp` (data_processor.py lines 120-184)

The individual format parses are calls into pandas (`pd.to_datetime` with a
fixed `format=`, or generic inference), external to the repository; they are
abstracted as `String → Option Int` functions collected in `TsParsers`
(`none` = the pandas call raises a `ValueError`-family parse error).  The
input is `Option String` (`none` = a value for which `pd.isna` holds).  The
result is `Except` over `Option Int`: `.ok none` is the `NaT` marker,
`.error` an exception that escapes `_parse_timestamp`.
-/

/-- The pandas parse attempts `_parse_timestamp` makes, in chain order. -/
structure TsParsers where
  /-- `pd.to_datetime(s, format="%b %d, %Y %H:%M:%S.%f", errors="raise")` -/
  fmt_at_frac : String → Option Int
  /-- `pd.to_datetime(s, format="%b %d, %Y %H:%M:%S", errors="raise")` -/
  fmt_at : String → Option Int
  /-- `pd.to_datetime(s, format="%Y-%m-%d %H:%M:%S.%f", errors="raise")` -/
  iso_frac : String → Option Int
  /-- `pd.to_datetime(s, format="%Y-%m-%d %H:%M:%S", errors="raise")` -/
  iso_sec : String → Option Int
  /-- `pd.to_datetime(s, format="%Y-%m-%d", errors="raise")` -/
  iso_date : String → Option Int
  /-- `pd.to_datetime(s, infer_datetime_format=True)` (default `errors="raise"`) -/
  generic : String → Option Int

/-- `DataProcessor._parse_timestamp`.  In the `"@"` branch the final generic
fallback (line 152) is not wrapped in any `try`, so a parse failure there
propagates as an exception (`.error`); every failure in the non-`"@"` chain is
caught and falls through to `return pd.NaT` (`.ok none`). -/
def parse_timestamp (P : TsParsers) : Option String → Except String (Option Int)
  | none => .ok none
  | some raw =>
    let timestamp_str := py_strip raw
    if py_contains timestamp_str '@' then
      let cleaned := py_strip (py_replace timestamp_str " @" "")
      match P.fmt_at_frac cleaned with
      | some d => .ok (some d)
      | none =>
        match P.fmt_at cleaned with
        | some d => .ok (some d)
        | none =>
          match P.generic cleaned with
          | some d => .ok (some d)
          | none => .error "ParserError"
    else
      match P.iso_frac timestamp_str with
      | some d => .ok (some d)
      | none =>
        match P.iso_sec timestamp_str with
        | some d => .ok (some d)
        | none =>
          match P.iso_date timestamp_str with
          | some d => .ok (some d)
          | none =>
            match P.generic timestamp_str with
            | some d => .ok (some d)
            | none => .ok none

/-!
## `DataProcessor.convert_timezone` (data_processor.py lines 398-469)

A pytz timezone is abstracted by two offset functions (minutes east of UTC):
`offset_at_civil` is the offset `tz.localize` attaches to a naive civil time,
`offset_at_abs` the offset the zone's rules give an absolute instant
(`astimezone`).  The pytz database is a `String → Option Zone` lookup
(`none` = `pytz.UnknownTimeZoneError`).  `convert_timezone` is modelled in
auto mode (`dst_override` absent or `"自動"`), where
`_convert_single_timestamp_with_override` returns the plain
`_convert_single_timestamp` result (lines 496-497).
-/

/-- A civil timezone as pytz exposes it to this code. -/
structure Zone where
  offset_at_civil : Int → Int
  offset_at_abs : Int → Int

/-- `DataProcessor._convert_single_timestamp` on a naive timestamp:
`pd.isna` short-circuit, `source_tz.localize`, `astimezone(target_tz)`,
`replace(tzinfo=None)`. -/
def convert_single_timestamp (source_tz target_tz : Zone) :
    Option Int → Option Int
  | none => none
  | some timestamp =>
    let localized_ts := timestamp - source_tz.offset_at_civil timestamp
    some (localized_ts + target_tz.offset_at_abs localized_ts)

/-- `DataProcessor.convert_timezone` in auto mode: resolve both zone names
first; any `pytz.UnknownTimeZoneError` is caught by the batch-level `except`,
which returns `self.df.copy()` — the original record set. -/
def convert_timezone (db : String → Option Zone) (df : List (Option Int))
    (source_timezone target_timezone : String) : List (Option Int) :=
  match db source_timezone with
  | none => df
  | some source_tz =>
    match db target_timezone with
    | none => df
    | some target_tz =>
      df.map (convert_single_timestamp source_tz target_tz)

/-- A fixed-offset zone (its offset functions are constant), e.g. `UTC`
(offset 0) or the `Asia/Taipei` family (offset 480). -/
def fixed_zone (offset : Int) : Zone :=
  { offset_at_civil := fun _ => offset, offset_at_abs := fun _ => offset }

/-- A two-entry pytz stand-in used by concrete witnesses: it recognizes
`"UTC"` and `"Asia/Taipei"` and nothing else. -/
def demo_db : String → Option Zone := fun tzid =>
  if tzid = "UTC" then some (fixed_zone 0)
  else if tzid = "Asia/Taipei" then some (fixed_zone 480)
  else none

/-!
## `ExportManager._extract_alarm_time` (export_manager.py lines 328-436)

The values a conversation cell can hold are modelled by `PyVal` (`pynone`
covers both `None` and `NaN`).  `json.loads` and `datetime.fromisoformat`
are library calls abstracted as parameters (`none` = the call raises, which
the code catches).  The function's whole body sits inside a blanket
`try/except` returning `""`, so every failure path is the empty string.
-/

/-- A Python value as it appears in a conversation row's payload. -/
inductive PyVal where
  | pynone
  | pystr (s : String)
  | pynum (n : Int)
  | pybool (b : Bool)
  | pylist (xs : List PyVal)
  | pydict (kvs : List (String × PyVal))
deriving Repr

/-- Python `==` on payload values (dict comparison is keyed in insertion
order here; the distinction is unobservable in `_extract_alarm_time`, whose
success path requires a string value). -/
def PyVal.beq : PyVal → PyVal → Bool
  | .pynone, .pynone => true
  | .pystr a, .pystr b => a == b
  | .pynum a, .pynum b => a == b
  | .pybool a, .pybool b => a == b
  | .pylist xs, .pylist ys => beqList xs ys
  | .pydict xs, .pydict ys => beqKVList xs ys
  | _, _ => false
where
  beqList : List PyVal → List PyVal → Bool
    | [], [] => true
    | a :: as_, b :: bs => PyVal.beq a b && beqList as_ bs
    | _, _ => false
  beqKVList : List (String × PyVal) → List (String × PyVal) → Bool
    | [], [] => true
    | (k, a) :: as_, (l, b) :: bs => k == l && PyVal.beq a b && beqKVList as_ bs
    | _, _ => false

/-- Python falsiness (`not v`). -/
def PyVal.falsy : PyVal → Bool
  | .pynone => true
  | .pystr s => s.isEmpty
  | .pynum n => n == 0
  | .pybool b => !b
  | .pylist xs => xs.isEmpty
  | .pydict kvs => kvs.isEmpty

/-- Line 349, `if pd.isna(data_field) or not data_field`: `True` means the
function returns `""` there.  `pd.isna` of a list is elementwise, so the
`if` raises (ambiguous truth value) for lists of two or more elements — the
blanket `except` turns that into `""` as well, so it is also `true` here;
a singleton list tests `pd.isna` of its element and then falsiness. -/
def isna_or_falsy : PyVal → Bool
  | .pynone => true
  | .pylist [] => true
  | .pylist [x] => x.beq .pynone
  | .pylist (_ :: _ :: _) => true
  | v => v.falsy

/-- A civil datetime as `datetime.fromisoformat` returns it (the fields
`strftime("%Y-%m-%d %H:%M")` reads). -/
structure IsoDateTime where
  year : Int
  month : Int
  day : Int
  hour : Int
  minute : Int
deriving Repr, DecidableEq

/-- Two-digit zero-padded field (`%m`, `%d`, `%H`, `%M`). -/
def pad2 (n : Int) : String :=
  ⟨[Char.ofNat (48 + (n / 10).toNat), Char.ofNat (48 + (n % 10).toNat)]⟩

/-- Four-digit zero-padded field (`%Y`). -/
def pad4 (n : Int) : String :=
  ⟨[Char.ofNat (48 + (n / 1000).toNat), Char.ofNat (48 + (n / 100 % 10).toNat),
    Char.ofNat (48 + (n / 10 % 10).toNat), Char.ofNat (48 + (n % 10).toNat)]⟩

/-- `dt.strftime("%Y-%m-%d %H:%M")`. -/
def format_alarm_dt (dt : IsoDateTime) : String :=
  pad4 dt.year ++ "-" ++ pad2 dt.month ++ "-" ++ pad2 dt.day ++ " " ++
    pad2 dt.hour ++ ":" ++ pad2 dt.minute

/-- The two fields of a conversation row that `_extract_alarm_time` reads
(`conv.get` of a missing column is `none`). -/
structure ConvRow where
  user_intent : Option PyVal
  data : Option PyVal

/-- Step 11 of `_extract_alarm_time`: format the matched `startDateTime`.
Only a string is accepted; `fromisoformat` is tried on the value with `'Z'`
replaced by `'+00:00'`, and a `ValueError` (`iso _ = none`) yields `""`. -/
def format_alarm (iso : String → Option IsoDateTime) (sv : PyVal) : String :=
  match sv with
  | .pystr s =>
    match iso (py_replace s "Z" "+00:00") with
    | some dt => " alarm_entity:(" ++ format_alarm_dt dt ++ ")"
    | none => ""
  | _ => ""

/-- `ExportManager._extract_alarm_time`, parameterized by `json.loads`
(`jl`) and `datetime.fromisoformat` (`iso`).  Steps follow the source's
numbered debug trace; every failing step returns `""`. -/
def extract_alarm_time (jl : String → Option PyVal)
    (iso : String → Option IsoDateTime) (conv : ConvRow) : String :=
  -- step 1: user_intent must lower-case to "alarm"; `.lower()` on a
  -- non-string raises AttributeError, caught by the blanket except
  match conv.user_intent.getD (.pystr "") with
  | .pystr intent =>
    if py_lower intent ≠ "alarm" then ""
    else
      -- step 2: data field present and neither NA nor falsy
      match conv.data with
      | none => ""
      | some data_field =>
        if isna_or_falsy data_field then ""
        else
          -- step 3: JSON-decode a string; keep a dict or list; reject others
          match
            (match data_field with
             | .pystr s => jl s
             | .pydict kvs => some (.pydict kvs)
             | .pylist xs => some (.pylist xs)
             | _ => none) with
          | none => ""
          | some data_json =>
            -- step 4: a list is unwrapped to its first element
            match
              (match data_json with
               | .pylist [] => none
               | .pylist (x :: _) => some x
               | v => some v) with
            | none => ""
            | some dj =>
              -- step 5: must be a dict
              match dj with
              | .pydict kvs =>
                -- step 6: uni_df_datetime present and truthy
                match kvs.lookup "uni_df_datetime" with
                | none => ""
                | some u =>
                  if u.falsy then ""
                  else
                    -- step 7: JSON-decode it when it is a string
                    match (match u with | .pystr s => jl s | v => some v) with
                    | none => ""
                    | some u2 =>
                      -- step 8: must be a dict
                      match u2 with
                      | .pydict ukvs =>
                        -- steps 9-10: both bounds present, truthy and equal
                        match ukvs.lookup "startDateTime",
                              ukvs.lookup "endDateTime" with
                        | some start_datetime, some end_datetime =>
                          if start_datetime.falsy || end_datetime.falsy ||
                              !(start_datetime.beq end_datetime) then ""
                          else format_alarm iso start_datetime
                        | _, _ => ""
                      | _ => ""
              | _ => ""
  | _ => ""

/-!
## Concrete fixtures

Calendar days are numbered from 2024-01-01 (day 0) in the segmentation
scenarios, so 2024-01-09 is day 8, 2024-01-10 day 9, 2024-01-11 day 10;
14:00 is minute 840, 13:00 minute 780, 11:00 minute 660, 10:00 minute 600.
-/

/-- The spec's segmentation scenario: records at 2024-01-10 13:00 (13740),
2024-01-10 15:00 (13860) and 2024-01-11 10:00 (15000). -/
def scenario_records : List Int := [13740, 13860, 15000]

/-- A pandas stand-in that parses nothing (every `pd.to_datetime` attempt
raises). -/
def no_pandas : TsParsers :=
  ⟨fun _ => none, fun _ => none, fun _ => none, fun _ => none,
   fun _ => none, fun _ => none⟩

/-- A `datetime.fromisoformat` stand-in that accepts exactly the spec
scenario's instant. -/
def demo_iso : String → Option IsoDateTime := fun s =>
  if s = "2025-01-01T09:00:00+00:00" then some ⟨2025, 1, 1, 9, 0⟩ else none

/-- The spec's alarm scenario row: `user_intent="alarm"` and payload
`uni_df_datetime` with equal `startDateTime`/`endDateTime`. -/
def alarm_scenario_row : ConvRow :=
  ⟨some (.pystr "alarm"),
   some (.pydict [("uni_df_datetime",
     .pydict [("startDateTime", .pystr "2025-01-01T09:00:00Z"),
              ("endDateTime", .pystr "2025-01-01T09:00:00Z")])])⟩

/-- The same alarm payload with differing `startDateTime`/`endDateTime`. -/
def alarm_scenario_row_diff : ConvRow :=
  ⟨some (.pystr "alarm"),
   some (.pydict [("uni_df_datetime",
     .pydict [("startDateTime", .pystr "2025-01-01T09:00:00Z"),
              ("endDateTime", .pystr "2025-01-01T10:00:00Z")])])⟩

/-- An alarm row whose `startDateTime`/`endDateTime` hold one identical
value `v` (used to probe non-string values). -/
def non_string_alarm_row (v : PyVal) : ConvRow :=
  ⟨some (.pystr "alarm"),
   some (.pydict [("uni_df_datetime",
     .pydict [("startDateTime", v), ("endDateTime", v)])])⟩

/-- All conversations of a session list, in session order (the multiset of
records the sessions hold). -/
def joined_conversations (l : List Session) : List Int :=
  (l.map Session.conversations).flatten

/-- The start of the `(start, end, is_gap)` key
`_segment_with_separate_gaps` files a record under. -/
def key_start (t cin cout : Int) : Int :=
  if is_gap_period t cin cout then (get_gap_period_boundaries t cin cout).1
  else (create_session_boundaries t cin cout).start

/-!
## Claim theorems
-/

/-- Claim C1, counterexample.  On the spec scenario (records 13:00, 15:00 on
2024-01-10 and 10:00 on 2024-01-11, check-in 14:00, check-out 11:00, merge
mode) the code does not emit the two claimed sessions
`[2024-01-09 14:00, 2024-01-10 11:00)` (holding the 13:00 record) and
`[2024-01-10 14:00, 2024-01-11 11:00)` (holding the rest): it emits a single
session. -/
theorem merge_scenario_two_sessions_refuted :
    segment_room_conversations "Hotel" "R" scenario_records 840 660 .merge_into_next
      ≠ [⟨"Hotel", "R", 12360, 13620, false, [13740]⟩,
         ⟨"Hotel", "R", 13800, 15060, false, [13860, 15000]⟩] ∧
    (segment_room_conversations "Hotel" "R" scenario_records 840 660
      .merge_into_next).length ≠ 2 := by
  decide

/-- Claim C1, amended.  On the spec scenario the code emits exactly one
session, `[2024-01-10 14:00, 2024-01-11 11:00)`, holding all three records:
the 13:00 gap-period record's boundary (built with the strict
`conversation_time > checkout_time` test) already starts the
2024-01-10 14:00 session, and both later records fall inside it. -/
theorem merge_scenario_single_session :
    segment_room_conversations "Hotel" "R" scenario_records 840 660 .merge_into_next
      = [⟨"Hotel", "R", 13800, 15060, false, [13740, 13860, 15000]⟩] := by
  decide

/-- Claim C3, counterexample.  For the timestamp 2024-01-10 11:00 (13620),
whose time-of-day equals the check-out time 11:00 exactly (check-in 14:00),
the session boundary starts on 2024-01-09, not on `date(t)` = 2024-01-10 as
claimed. -/
theorem boundary_at_checkout_not_same_day :
    (create_session_boundaries 13620 840 660).start ≠ combine (ts_date 13620) 840 ∧
    (create_session_boundaries 13620 840 660).start = combine (ts_date 13620 - 1) 840 := by
  decide

/-- Claim C3, amended.  A timestamp exactly at the check-out time (with
`checkout_time < checkin_time`) is assigned the boundary starting the
*previous* day: line 230's test `conversation_time > checkout_time` is
strict, so equality falls through to the yesterday branch. -/
theorem boundary_at_checkout_prev_day (t cin cout : Int)
    (hlt : cout < cin) (hts : ts_time t = cout) :
    (create_session_boundaries t cin cout).start = combine (ts_date t - 1) cin := by
  simp only [create_session_boundaries]
  split_ifs with h1 h2
  · omega
  · omega
  · rfl

/-- Witness for `boundary_at_checkout_prev_day` at 2024-01-10 11:00 with
check-in 14:00, check-out 11:00. -/
theorem boundary_at_checkout_prev_day_witness :
    (create_session_boundaries 13620 840 660).start = combine (ts_date 13620 - 1) 840 :=
  boundary_at_checkout_prev_day 13620 840 660 (by decide) (by decide)

/-- Claim C5 (code bug).  A partition holding a record whose
`request_timestamp` is the unparseable marker `NaT` makes
`_segment_room_conversations` raise (`_is_gap_period` evaluates
`NaT.time()`), instead of skipping the record: here the merge-mode loop on
`[some (2024-01-10 13:00), NaT]` aborts with the `ValueError`. -/
theorem segmentation_nat_raises :
    segment_loop_raw "Hotel" "R" 840 660 false [some 13740, none] none []
      = .error "NaTType does not support time" := by
  rfl

/-- Claim C6.  `_is_gap_period` returns `True` exactly when
`checkout_time < checkin_time` and `checkout_time ≤ time-of-day(t) <
checkin_time`; when `checkout_time ≥ checkin_time` it is `False` for every
time-of-day. -/
theorem is_gap_period_iff (timestamp cin cout : Int) :
    (is_gap_period timestamp cin cout = true ↔
      cout < cin ∧ cout ≤ ts_time timestamp ∧ ts_time timestamp < cin) ∧
    (cin ≤ cout → is_gap_period timestamp cin cout = false) := by
  unfold is_gap_period
  split_ifs with h
  · simp [h]
  · simp [h]

/-- Claim C7.  When either zone identifier is unrecognized
(`pytz.timezone` raises before any record is touched), `convert_timezone`
returns the original record set unchanged — a batch-level fallback, with no
partially converted record. -/
theorem convert_timezone_unknown_zone_fallback
    (db : String → Option Zone) (df : List (Option Int))
    (source_timezone target_timezone : String)
    (h : db source_timezone = none ∨ db target_timezone = none) :
    convert_timezone db df source_timezone target_timezone = df := by
  unfold convert_timezone
  rcases h with h | h
  · rw [h]
  · cases hs : db source_timezone with
    | none => rfl
    | some z => rw [h]

/-- Witness for `convert_timezone_unknown_zone_fallback`: the demo database
does not know `"Mars/Olympus"`, so the batch `[some 120]` comes back as is. -/
theorem convert_timezone_unknown_zone_fallback_witness :
    convert_timezone demo_db [some 120] "Asia/Taipei" "Mars/Olympus" = [some 120] :=
  convert_timezone_unknown_zone_fallback demo_db [some 120] "Asia/Taipei"
    "Mars/Olympus" (Or.inr rfl)

/-- Claim C4 (code bug).  In the `"@"` branch of `_parse_timestamp` the
final generic fallback `pd.to_datetime(cleaned, infer_datetime_format=True)`
(line 152) is outside every `try`, so when all three `"@"`-branch attempts
fail the pandas parse error escapes instead of `NaT` being returned: the
input `"not a date @ all"` (cleaned to `"not a date all"`, which pandas
cannot parse) raises. -/
theorem parse_timestamp_at_fallback_raises (P : TsParsers)
    (h1 : P.fmt_at_frac "not a date all" = none)
    (h2 : P.fmt_at "not a date all" = none)
    (h3 : P.generic "not a date all" = none) :
    parse_timestamp P (some "not a date @ all") = .error "ParserError" := by
  have hs : py_strip "not a date @ all" = "not a date @ all" := by decide
  have hc : py_contains "not a date @ all" '@' = true := by decide
  have hcl : py_strip (py_replace "not a date @ all" " @" "") = "not a date all" := by
    decide
  simp only [parse_timestamp, hs, hc, hcl, if_true, h1, h2, h3]

/-- Witness for `parse_timestamp_at_fallback_raises` with the stand-in
pandas that parses nothing. -/
theorem parse_timestamp_at_fallback_raises_witness :
    parse_timestamp no_pandas (some "not a date @ all") = .error "ParserError" :=
  parse_timestamp_at_fallback_raises no_pandas rfl rfl rfl

/-- Claim C8.  Reprojecting a record set from zone A to zone B and back
(auto mode) reproduces the original civil timestamps, given that each
timestamp is a valid, unambiguous civil time whose rendering in B localizes
back to the same absolute instant (the two offset hypotheses: no
calendar-rule change between the conversions, no DST ambiguity).  `NaT`
entries round-trip unchanged as well. -/
theorem convert_timezone_round_trip
    (db : String → Option Zone) (a_id b_id : String) (A B : Zone)
    (records : List (Option Int))
    (hA : db a_id = some A) (hB : db b_id = some B)
    (h : ∀ t : Int, some t ∈ records →
      B.offset_at_civil (t - A.offset_at_civil t +
          B.offset_at_abs (t - A.offset_at_civil t))
        = B.offset_at_abs (t - A.offset_at_civil t) ∧
      A.offset_at_abs (t - A.offset_at_civil t) = A.offset_at_civil t) :
    convert_timezone db (convert_timezone db records a_id b_id) b_id a_id
      = records := by
  unfold convert_timezone
  rw [hA, hB]
  dsimp only
  rw [List.map_map]
  induction records with
  | nil => rfl
  | cons x xs ih =>
    have ihs : (xs.map (convert_single_timestamp B A ∘
        convert_single_timestamp A B)) = xs := by
      apply ih
      intro t ht
      exact h t (List.mem_cons_of_mem _ ht)
    rw [List.map_cons, ihs]
    congr 1
    cases x with
    | none => rfl
    | some t =>
      have ht := h t (List.mem_cons_self _ _)
      simp only [Function.comp, convert_single_timestamp]
      rw [ht.1]
      have e1 : t - A.offset_at_civil t + B.offset_at_abs (t - A.offset_at_civil t) -
          B.offset_at_abs (t - A.offset_at_civil t) = t - A.offset_at_civil t := by
        ring
      rw [e1, ht.2]
      congr 1
      ring

/-- Witness for `convert_timezone_round_trip`: Asia/Taipei → UTC →
Asia/Taipei on `[some 1000, none]` with the demo database (fixed-offset
zones satisfy both offset hypotheses definitionally). -/
theorem convert_timezone_round_trip_witness :
    convert_timezone demo_db
        (convert_timezone demo_db [some 1000, none] "Asia/Taipei" "UTC")
        "UTC" "Asia/Taipei"
      = [some 1000, none] :=
  convert_timezone_round_trip demo_db "Asia/Taipei" "UTC" (fixed_zone 480)
    (fixed_zone 0) [some 1000, none] rfl rfl
    (fun _ _ => ⟨rfl, rfl⟩)

/-- Every branch of `_extract_alarm_time` either returns `""` or ends in the
step-11 formatting of the matched `startDateTime` value. -/
lemma extract_empty_or_format (jl : String → Option PyVal)
    (iso : String → Option IsoDateTime) (conv : ConvRow) :
    extract_alarm_time jl iso conv = "" ∨
    ∃ sv, extract_alarm_time jl iso conv = format_alarm iso sv := by
  unfold extract_alarm_time
  repeat' first
    | exact Or.inl rfl
    | exact Or.inr ⟨_, rfl⟩
    | split

/-- Step 11 either rejects (non-string value, or `fromisoformat` failure)
or produces the fixed-shape annotation. -/
lemma format_alarm_cases (iso : String → Option IsoDateTime) (sv : PyVal) :
    format_alarm iso sv = "" ∨
    ∃ s dt, iso (py_replace s "Z" "+00:00") = some dt ∧
      format_alarm iso sv = " alarm_entity:(" ++ format_alarm_dt dt ++ ")" := by
  cases sv with
  | pystr s =>
    cases hi : iso (py_replace s "Z" "+00:00") with
    | none => exact Or.inl (by simp [format_alarm, hi])
    | some dt => exact Or.inr ⟨s, dt, hi, by simp [format_alarm, hi]⟩
  | pynone => exact Or.inl rfl
  | pynum n => exact Or.inl rfl
  | pybool b => exact Or.inl rfl
  | pylist xs => exact Or.inl rfl
  | pydict kvs => exact Or.inl rfl

/-- `"%Y-%m-%d %H:%M"` always renders sixteen characters. -/
lemma format_alarm_dt_length (dt : IsoDateTime) : (format_alarm_dt dt).length = 16 := by
  simp [format_alarm_dt, pad4, pad2, String.length]

/-- A non-empty extraction result needs `user_intent` to be a string that
lower-cases to `"alarm"` (step 1). -/
lemma extract_intent_only_if (jl : String → Option PyVal)
    (iso : String → Option IsoDateTime) (conv : ConvRow)
    (h : extract_alarm_time jl iso conv ≠ "") :
    ∃ s, conv.user_intent = some (.pystr s) ∧ py_lower s = "alarm" := by
  obtain ⟨ui, data⟩ := conv
  cases ui with
  | none => exact absurd rfl h
  | some v =>
    cases v with
    | pystr s =>
      by_cases hs : py_lower s = "alarm"
      · exact ⟨s, rfl, hs⟩
      · exfalso
        apply h
        simp only [extract_alarm_time, Option.getD]
        exact if_pos hs
    | pynone => exact absurd rfl h
    | pynum n => exact absurd rfl h
    | pybool b => exact absurd rfl h
    | pylist xs => exact absurd rfl h
    | pydict kvs => exact absurd rfl h

/-- Claim C9.  `_extract_alarm_time` (a total function here: its blanket
`except` turns any internal failure into `""`) emits an annotation only when
`user_intent` lower-cases to `"alarm"`; on the spec scenario payload with
equal `startDateTime`/`endDateTime` it yields the annotation containing
`2025-01-01 09:00`, and with differing bounds it yields `""`. -/
theorem extract_alarm_time_spec (jl : String → Option PyVal)
    (iso : String → Option IsoDateTime) :
    (∀ conv : ConvRow, extract_alarm_time jl iso conv ≠ "" →
      ∃ s, conv.user_intent = some (.pystr s) ∧ py_lower s = "alarm") ∧
    (iso "2025-01-01T09:00:00+00:00" = some ⟨2025, 1, 1, 9, 0⟩ →
      extract_alarm_time jl iso alarm_scenario_row
        = " alarm_entity:(2025-01-01 09:00)") ∧
    extract_alarm_time jl iso alarm_scenario_row_diff = "" := by
  refine ⟨fun conv h => extract_intent_only_if jl iso conv h, fun hiso => ?_, rfl⟩
  have e : extract_alarm_time jl iso alarm_scenario_row
      = format_alarm iso (.pystr "2025-01-01T09:00:00Z") := rfl
  rw [e]
  simp only [format_alarm]
  rw [show py_replace "2025-01-01T09:00:00Z" "Z" "+00:00"
      = "2025-01-01T09:00:00+00:00" from by decide, hiso]
  decide

/-- Witness for `extract_alarm_time_spec`, instantiated with the demo
`fromisoformat`: the scenario row yields the annotation. -/
theorem extract_alarm_time_spec_witness :
    extract_alarm_time (fun _ => none) demo_iso alarm_scenario_row
      = " alarm_entity:(2025-01-01 09:00)" :=
  (extract_alarm_time_spec (fun _ => none) demo_iso).2.1 rfl

/-- Claim C10.  An annotation is emitted only when the matched
`startDateTime` is a string whose (`'Z'`-normalized) text `fromisoformat`
accepts, and it always has the exact shape
`" alarm_entity:(YYYY-MM-DD HH:MM)"` (sixteen formatted characters); a
present-and-equal but non-string value yields `""`. -/
theorem extract_alarm_time_shape (jl : String → Option PyVal)
    (iso : String → Option IsoDateTime) :
    (∀ conv : ConvRow, extract_alarm_time jl iso conv ≠ "" →
      ∃ s dt, iso (py_replace s "Z" "+00:00") = some dt ∧
        extract_alarm_time jl iso conv
          = " alarm_entity:(" ++ format_alarm_dt dt ++ ")" ∧
        (format_alarm_dt dt).length = 16) ∧
    (∀ v : PyVal, (∀ s, v ≠ .pystr s) →
      extract_alarm_time jl iso (non_string_alarm_row v) = "") := by
  constructor
  · intro conv h
    rcases extract_empty_or_format jl iso conv with he | ⟨sv, he⟩
    · exact absurd he h
    · rcases format_alarm_cases iso sv with hf | ⟨s, dt, hiso, hf⟩
      · rw [he, hf] at h
        exact absurd rfl h
      · exact ⟨s, dt, hiso, by rw [he, hf], format_alarm_dt_length dt⟩
  · intro v hv
    cases v with
    | pystr s => exact absurd rfl (hv s)
    | pynone => rfl
    | pynum n =>
      simp [extract_alarm_time, non_string_alarm_row, format_alarm, List.lookup]
    | pybool b =>
      simp [extract_alarm_time, non_string_alarm_row, format_alarm, List.lookup]
    | pylist xs =>
      simp [extract_alarm_time, non_string_alarm_row, format_alarm, List.lookup]
    | pydict kvs =>
      simp [extract_alarm_time, non_string_alarm_row, format_alarm, List.lookup]

/-- Witness for `extract_alarm_time_shape`: a non-string (numeric)
`startDateTime`/`endDateTime` pair, though present and equal, yields `""`. -/
theorem extract_alarm_time_shape_witness :
    extract_alarm_time (fun _ => none) demo_iso
        (non_string_alarm_row (.pynum 7)) = "" :=
  (extract_alarm_time_shape (fun _ => none) demo_iso).2 (.pynum 7)
    (fun _ h => PyVal.noConfusion h)

/-!
## Segmentation invariants (claim C2)
-/

/-- `joined_conversations` distributes over appending session lists. -/
lemma joined_conversations_append (l1 l2 : List Session) :
    joined_conversations (l1 ++ l2)
      = joined_conversations l1 ++ joined_conversations l2 := by
  simp [joined_conversations]

/-- Flushing contributes exactly the buffered conversations. -/
lemma joined_flush (hotel room : String) (b : SessionBounds) (convs : List Int) :
    joined_conversations (flush_session hotel room b convs) = convs := by
  by_cases hc : convs.isEmpty
  · simp [flush_session, hc, joined_conversations]
    simpa using hc
  · simp [flush_session, hc, joined_conversations]

/-- The records held by the merge/exclude loop's output: the pending buffer
(when a session is open) followed by the non-excluded remaining records, in
input order. -/
lemma segment_loop_join (hotel room : String) (cin cout : Int) (ex : Bool) :
    ∀ (records : List Int) (cur : Option SessionBounds) (convs : List Int),
    joined_conversations (segment_loop hotel room cin cout ex records cur convs)
      = (match cur with | none => ([] : List Int) | some _ => convs) ++
        records.filter (fun u => !(ex && is_gap_period u cin cout)) := by
  intro records
  induction records with
  | nil =>
    intro cur convs
    cases cur with
    | none => simp [segment_loop, joined_conversations]
    | some b => simp [segment_loop, joined_flush]
  | cons t rest ih =>
    intro cur convs
    cases hex : (ex && is_gap_period t cin cout) with
    | true =>
      have hf : List.filter (fun u => !(ex && is_gap_period u cin cout)) (t :: rest)
          = List.filter (fun u => !(ex && is_gap_period u cin cout)) rest := by
        rw [List.filter_cons, hex]
        simp
      rw [hf]
      cases cur with
      | none =>
        have e : segment_loop hotel room cin cout ex (t :: rest) none convs
            = segment_loop hotel room cin cout ex rest none convs := by
          simp [segment_loop, hex]
        rw [e]
        exact ih none convs
      | some b =>
        have e : segment_loop hotel room cin cout ex (t :: rest) (some b) convs
            = segment_loop hotel room cin cout ex rest (some b) convs := by
          simp [segment_loop, hex]
        rw [e]
        exact ih (some b) convs
    | false =>
      have hf : List.filter (fun u => !(ex && is_gap_period u cin cout)) (t :: rest)
          = t :: List.filter (fun u => !(ex && is_gap_period u cin cout)) rest := by
        rw [List.filter_cons, hex]
        simp
      rw [hf]
      cases cur with
      | none =>
        have e : segment_loop hotel room cin cout ex (t :: rest) none convs
            = segment_loop hotel room cin cout ex rest
                (some (create_session_boundaries t cin cout)) [t] := by
          simp [segment_loop, hex]
        rw [e, ih]
        simp
      | some b =>
        cases hin : is_in_session t b with
        | true =>
          have e : segment_loop hotel room cin cout ex (t :: rest) (some b) convs
              = segment_loop hotel room cin cout ex rest (some b) (convs ++ [t]) := by
            simp [segment_loop, hex, hin]
          rw [e, ih]
          simp
        | false =>
          have e : segment_loop hotel room cin cout ex (t :: rest) (some b) convs
              = flush_session hotel room b convs ++
                  segment_loop hotel room cin cout ex rest
                    (some (create_session_boundaries t cin cout)) [t] := by
            simp [segment_loop, hex, hin]
          rw [e, joined_conversations_append, joined_flush, ih]
          simp

/-- The session-start `_create_session_boundaries` derives is monotone in
the timestamp. -/
lemma create_session_boundaries_start_mono (cin cout : Int) (t u : Int)
    (h : t ≤ u) :
    (create_session_boundaries t cin cout).start
      ≤ (create_session_boundaries u cin cout).start := by
  simp only [create_session_boundaries, combine, ts_date, ts_time]
  split_ifs <;> omega

/-- A flushed session starts at the open session's start. -/
lemma flush_session_mem (hotel room : String) (b : SessionBounds)
    (convs : List Int) (s : Session) (hs : s ∈ flush_session hotel room b convs) :
    s.start_time = b.start := by
  by_cases hc : convs.isEmpty <;> simp [flush_session, hc] at hs
  rw [hs]

/-- On a sorted partition the merge/exclude loop emits sessions in
non-decreasing start order, all starting no earlier than the open session. -/
lemma segment_loop_sorted (hotel room : String) (cin cout : Int) (ex : Bool) :
    ∀ (records : List Int) (cur : Option SessionBounds) (convs : List Int),
    List.Pairwise (· ≤ ·) records →
    (∀ b, cur = some b → ∀ u ∈ records,
      b.start ≤ (create_session_boundaries u cin cout).start) →
    List.Pairwise (fun s1 s2 => s1.start_time ≤ s2.start_time)
        (segment_loop hotel room cin cout ex records cur convs) ∧
    (∀ b, cur = some b → ∀ s ∈ segment_loop hotel room cin cout ex records cur convs,
      b.start ≤ s.start_time) := by
  intro records
  induction records with
  | nil =>
    intro cur convs _ _
    cases cur with
    | none => simp [segment_loop]
    | some b =>
      refine ⟨?_, ?_⟩
      · by_cases hc : convs.isEmpty <;> simp [segment_loop, flush_session, hc]
      · intro b2 hb2 s hs
        have hb : b2 = b := (Option.some.inj hb2).symm
        subst hb
        rw [flush_session_mem hotel room b2 convs s hs]
  | cons t rest ih =>
    intro cur convs hsorted hcur
    have hsr : List.Pairwise (· ≤ ·) rest :=
      hsorted.sublist (List.sublist_cons_self t rest)
    have htle : ∀ u ∈ rest, t ≤ u := (List.pairwise_cons.mp hsorted).1
    have hnewcur : ∀ b, some (create_session_boundaries t cin cout) = some b →
        ∀ u ∈ rest, b.start ≤ (create_session_boundaries u cin cout).start := by
      intro b hb u hu
      cases hb
      exact create_session_boundaries_start_mono cin cout t u (htle u hu)
    cases hex : (ex && is_gap_period t cin cout) with
    | true =>
      cases cur with
      | none =>
        have e : segment_loop hotel room cin cout ex (t :: rest) none convs
            = segment_loop hotel room cin cout ex rest none convs := by
          simp [segment_loop, hex]
        rw [e]
        refine ⟨(ih none convs hsr (by simp)).1, ?_⟩
        intro b hb
        cases hb
      | some b =>
        have e : segment_loop hotel room cin cout ex (t :: rest) (some b) convs
            = segment_loop hotel room cin cout ex rest (some b) convs := by
          simp [segment_loop, hex]
        rw [e]
        have hcur2 : ∀ b2, (some b : Option SessionBounds) = some b2 → ∀ u ∈ rest,
            b2.start ≤ (create_session_boundaries u cin cout).start := by
          intro b2 hb2 u hu
          exact hcur b2 hb2 u (List.mem_cons_of_mem t hu)
        exact ih (some b) convs hsr hcur2
    | false =>
      cases cur with
      | none =>
        have e : segment_loop hotel room cin cout ex (t :: rest) none convs
            = segment_loop hotel room cin cout ex rest
                (some (create_session_boundaries t cin cout)) [t] := by
          simp [segment_loop, hex]
        rw [e]
        refine ⟨(ih _ [t] hsr hnewcur).1, ?_⟩
        intro b hb
        cases hb
      | some b =>
        cases hin : is_in_session t b with
        | true =>
          have e : segment_loop hotel room cin cout ex (t :: rest) (some b) convs
              = segment_loop hotel room cin cout ex rest (some b) (convs ++ [t]) := by
            simp [segment_loop, hex, hin]
          rw [e]
          have hcur2 : ∀ b2, (some b : Option SessionBounds) = some b2 → ∀ u ∈ rest,
              b2.start ≤ (create_session_boundaries u cin cout).start := by
            intro b2 hb2 u hu
            exact hcur b2 hb2 u (List.mem_cons_of_mem t hu)
          exact ih (some b) (convs ++ [t]) hsr hcur2
        | false =>
          have e : segment_loop hotel room cin cout ex (t :: rest) (some b) convs
              = flush_session hotel room b convs ++
                  segment_loop hotel room cin cout ex rest
                    (some (create_session_boundaries t cin cout)) [t] := by
            simp [segment_loop, hex, hin]
          rw [e]
          have hbt : b.start ≤ (create_session_boundaries t cin cout).start :=
            hcur b rfl t (List.mem_cons_self t rest)
          have hrec := ih (some (create_session_boundaries t cin cout)) [t] hsr hnewcur
          have htail : ∀ s ∈ segment_loop hotel room cin cout ex rest
              (some (create_session_boundaries t cin cout)) [t],
              (create_session_boundaries t cin cout).start ≤ s.start_time :=
            hrec.2 _ rfl
          constructor
          · rw [List.pairwise_append]
            refine ⟨?_, hrec.1, ?_⟩
            · by_cases hc : convs.isEmpty <;> simp [flush_session, hc]
            · intro s1 hs1 s2 hs2
              rw [flush_session_mem hotel room b convs s1 hs1]
              exact le_trans hbt (htail s2 hs2)
          · intro b2 hb2 s hs
            have hb : b2 = b := (Option.some.inj hb2).symm
            subst hb
            rcases List.mem_append.mp hs with hs | hs
            · rw [flush_session_mem hotel room b2 convs s hs]
            · exact le_trans hbt (htail s hs)

/-- The start of the separate-gap key is monotone in the timestamp (for
valid times-of-day). -/
lemma key_start_mono (cin cout : Int) (hcin0 : 0 ≤ cin) (hcin1 : cin < 1440)
    (hcout0 : 0 ≤ cout) (hcout1 : cout < 1440) (t u : Int) (h : t ≤ u) :
    key_start t cin cout ≤ key_start u cin cout := by
  simp only [key_start, is_gap_period, get_gap_period_boundaries,
    create_session_boundaries, combine, ts_date, ts_time]
  split_ifs <;> simp_all <;> omega

/-- Filing a record under a key either leaves the session starts unchanged
(an existing session matched) or appends the key's start. -/
lemma add_to_sessions_starts (hotel room : String) (key : Int × Int × Bool)
    (row : Int) : ∀ sessions : List Session,
    (add_to_sessions hotel room key row sessions).map Session.start_time
        = sessions.map Session.start_time ∨
    (add_to_sessions hotel room key row sessions).map Session.start_time
        = sessions.map Session.start_time ++ [key.1] := by
  intro sessions
  induction sessions with
  | nil => right; simp [add_to_sessions]
  | cons s rest ih =>
    by_cases hm : s.start_time = key.1 ∧ s.end_time = key.2.1 ∧
        s.is_gap_period = key.2.2
    · left
      simp [add_to_sessions, hm]
    · rcases ih with ih | ih
      · left
        simp [add_to_sessions, hm, ih]
      · right
        simp [add_to_sessions, hm, ih]

/-- Filing a record adds exactly one occurrence of it to the held records. -/
lemma add_to_sessions_count (hotel room : String) (key : Int × Int × Bool)
    (row : Int) (x : Int) : ∀ sessions : List Session,
    (joined_conversations (add_to_sessions hotel room key row sessions)).count x
      = (joined_conversations sessions).count x + (if x = row then 1 else 0) := by
  intro sessions
  induction sessions with
  | nil =>
    simp [add_to_sessions, joined_conversations, List.count_singleton]
    rcases em (x = row) with rfl | he
    · simp [List.count_cons]
    · simp [List.count_cons, he, Ne.symm he]
  | cons s rest ih =>
    by_cases hm : s.start_time = key.1 ∧ s.end_time = key.2.1 ∧
        s.is_gap_period = key.2.2
    · simp [add_to_sessions, hm, joined_conversations, List.count_append]
      rcases em (x = row) with he | he <;> simp [he, List.count_cons, List.count_append]
      omega
    · simp [add_to_sessions, hm, joined_conversations, List.count_append] at ih ⊢
      omega

/-- One step of `_segment_with_separate_gaps`, with the chosen key spelled
out. -/
lemma segment_with_separate_gaps_key (hotel room : String) (cin cout : Int)
    (t : Int) (rest : List Int) (acc : List Session) :
    segment_with_separate_gaps hotel room cin cout (t :: rest) acc
      = segment_with_separate_gaps hotel room cin cout rest
          (add_to_sessions hotel room
            (if is_gap_period t cin cout then
              ((get_gap_period_boundaries t cin cout).1,
               (get_gap_period_boundaries t cin cout).2, true)
            else
              ((create_session_boundaries t cin cout).start,
               (create_session_boundaries t cin cout).stop, false)) t acc) := by
  cases hg : is_gap_period t cin cout <;>
    simp [segment_with_separate_gaps, hg]

/-- The separate-gap mode keeps every record exactly once. -/
lemma segment_with_separate_gaps_count (hotel room : String) (cin cout : Int)
    (x : Int) : ∀ (records : List Int) (acc : List Session),
    (joined_conversations
        (segment_with_separate_gaps hotel room cin cout records acc)).count x
      = (joined_conversations acc).count x + records.count x := by
  intro records
  induction records with
  | nil => intro acc; simp [segment_with_separate_gaps]
  | cons t rest ih =>
    intro acc
    rw [segment_with_separate_gaps_key, ih, add_to_sessions_count,
      List.count_cons]
    rcases em (x = t) with rfl | he
    · simp
      omega
    · simp [he, Ne.symm he]

/-- The separate-gap mode lists sessions in non-decreasing start order on a
sorted partition. -/
lemma segment_with_separate_gaps_sorted (hotel room : String) (cin cout : Int)
    (hcin0 : 0 ≤ cin) (hcin1 : cin < 1440) (hcout0 : 0 ≤ cout)
    (hcout1 : cout < 1440) :
    ∀ (records : List Int) (acc : List Session),
    List.Pairwise (· ≤ ·) records →
    List.Pairwise (· ≤ ·) (acc.map Session.start_time) →
    (∀ y ∈ acc.map Session.start_time, ∀ u ∈ records, y ≤ key_start u cin cout) →
    List.Pairwise (· ≤ ·)
      ((segment_with_separate_gaps hotel room cin cout records acc).map
        Session.start_time) := by
  intro records
  induction records with
  | nil =>
    intro acc _ hacc _
    simpa [segment_with_separate_gaps] using hacc
  | cons t rest ih =>
    intro acc hsorted hacc hbound
    have htle : ∀ u ∈ rest, t ≤ u := (List.pairwise_cons.mp hsorted).1
    have hsr : List.Pairwise (· ≤ ·) rest :=
      hsorted.sublist (List.sublist_cons_self t rest)
    rw [segment_with_separate_gaps_key]
    set key := (if is_gap_period t cin cout then
        ((get_gap_period_boundaries t cin cout).1,
         (get_gap_period_boundaries t cin cout).2, true)
      else
        ((create_session_boundaries t cin cout).start,
         (create_session_boundaries t cin cout).stop, false)) with hkey
    have hkey1 : key.1 = key_start t cin cout := by
      rw [hkey, key_start]
      cases is_gap_period t cin cout <;> simp
    rcases add_to_sessions_starts hotel room key t acc with hst | hst
    · apply ih
      · exact hsr
      · rw [hst]
        exact hacc
      · intro y hy u hu
        rw [hst] at hy
        exact hbound y hy u (List.mem_cons_of_mem t hu)
    · apply ih
      · exact hsr
      · rw [hst, List.pairwise_append]
        refine ⟨hacc, by simp, ?_⟩
        intro a ha b hb
        rw [List.mem_singleton.mp hb, hkey1]
        exact hbound a ha t (List.mem_cons_self t rest)
      · intro y hy u hu
        rw [hst] at hy
        rcases List.mem_append.mp hy with hy | hy
        · exact hbound y hy u (List.mem_cons_of_mem t hu)
        · rw [List.mem_singleton.mp hy, hkey1]
          exact key_start_mono cin cout hcin0 hcin1 hcout0 hcout1 t u (htle u hu)

/-- Counting a kept element is unchanged by filtering. -/
lemma count_filter_eq (p : Int → Bool) (x : Int) (hx : p x = true) :
    ∀ l : List Int, (l.filter p).count x = l.count x := by
  intro l
  induction l with
  | nil => rfl
  | cons a l ih =>
    rw [List.filter_cons]
    rcases em (x = a) with rfl | hne
    · rw [hx]
      simp [List.count_cons, ih]
    · cases hp : p a
      · simp [List.count_cons, ih, hne, Ne.symm hne]
      · simp [List.count_cons, ih, hne, Ne.symm hne]

/-- Claim C2, counterexample.  With check-in 10:00, check-out 18:00
(`checkout_time > checkin_time`, so no record is a gap record and none is
excluded) and the sorted records 10:00 and 19:00 of day 1, merge-mode
segmentation emits two sessions with the identical interval
`[day-1 10:00, day-1 18:00)`: the emitted sessions of one partition are not
pairwise non-overlapping. -/
theorem sessions_overlap_counterexample :
    ¬ List.Pairwise
        (fun s1 s2 => s1.end_time ≤ s2.start_time ∨ s2.end_time ≤ s1.start_time)
        (segment_room_conversations "Hotel" "R" [2040, 2580] 600 1080
          .merge_into_next) := by
  decide

/-- Claim C2, amended.  For every gap policy, on a sorted partition with
valid check-in/check-out times the emitted sessions are ordered by
non-decreasing `start`, and every record that is not a gap-period record
(and hence not excluded under any policy) is held by exactly one emitted
session (occurrence count preserved).  Pairwise interval disjointness does
not hold in general (see the counterexample). -/
theorem segmentation_ordered_and_complete
    (hotel room : String) (records : List Int) (cin cout : Int)
    (mode : GapPeriodMode)
    (hcin0 : 0 ≤ cin) (hcin1 : cin < 1440) (hcout0 : 0 ≤ cout)
    (hcout1 : cout < 1440) (hsorted : List.Pairwise (· ≤ ·) records) :
    List.Pairwise (fun s1 s2 => s1.start_time ≤ s2.start_time)
        (segment_room_conversations hotel room records cin cout mode) ∧
    ∀ t : Int, is_gap_period t cin cout = false →
      (joined_conversations
          (segment_room_conversations hotel room records cin cout mode)).count t
        = records.count t := by
  cases mode with
  | merge_into_next =>
    constructor
    · exact (segment_loop_sorted hotel room cin cout false records none []
        hsorted (fun b hb => nomatch hb)).1
    · intro t ht
      show (joined_conversations
          (segment_loop hotel room cin cout false records none [])).count t
        = records.count t
      rw [segment_loop_join]
      simp
  | exclude =>
    constructor
    · exact (segment_loop_sorted hotel room cin cout true records none []
        hsorted (fun b hb => nomatch hb)).1
    · intro t ht
      show (joined_conversations
          (segment_loop hotel room cin cout true records none [])).count t
        = records.count t
      rw [segment_loop_join]
      simp only [List.nil_append, Bool.true_and]
      exact count_filter_eq _ t (by simp [ht]) records
  | separate_gap_session =>
    constructor
    · have := segment_with_separate_gaps_sorted hotel room cin cout hcin0 hcin1
        hcout0 hcout1 records [] hsorted (by simp) (by simp)
      exact List.pairwise_map.mp this
    · intro t ht
      show (joined_conversations
          (segment_with_separate_gaps hotel room cin cout records [])).count t
        = records.count t
      rw [segment_with_separate_gaps_count]
      simp [joined_conversations]

/-- Witness for `segmentation_ordered_and_complete` on the merge-mode spec
scenario. -/
theorem segmentation_ordered_and_complete_witness :
    List.Pairwise (fun s1 s2 => s1.start_time ≤ s2.start_time)
        (segment_room_conversations "Hotel" "R" scenario_records 840 660
          .merge_into_next) ∧
    ∀ t : Int, is_gap_period t 840 660 = false →
      (joined_conversations
          (segment_room_conversations "Hotel" "R" scenario_records 840 660
            .merge_into_next)).count t
        = scenario_records.count t :=
  segmentation_ordered_and_complete "Hotel" "R" scenario_records 840 660
    .merge_into_next (by decide) (by decide) (by decide) (by decide) (by decide)

end HotelReview
